import Mathlib

/-
Verification of the kubelet pod-configuration ingestion pipeline:
the file-based configuration source adapter, its manifest decoding and
defaulting logic, the merge multiplexer, and the etcd client helper.
The etcd helper is embedded from pkg/kubelet/util.go.  The file source
adapter, decoder and multiplexer are modelled from the specification
(sections 3, 4.1, 4.2, 4.3, 7 and 9), since only their tests
(pkg/kubelet/config/file_test.go) are part of the available source;
each such definition carries a doc comment naming what is missing.
-/

namespace KubeletConfig

/-- Modelled from the spec: a container entry of a manifest or pod spec
(section 3, section 6 wire schema); the original Go types live in the
missing pkg/api packages. Only the fields exercised by the pipeline are
carried. -/
structure Container where
  name : String
  image : String
  imagePullPolicy : String
  terminationMessagePath : String
deriving DecidableEq, Repr

/-- Modelled from the spec: a volume entry with a name and a source spec
(section 3); the host-path variant is the one the tests use. -/
structure Volume where
  name : String
  hostPathSource : Option String
deriving DecidableEq, Repr

/-- Modelled from the spec: the external, versioned, user-authored Manifest
(section 3, section 6); the original Go type v1beta1.ContainerManifest is in
the missing pkg/api/v1beta1 package. Absent optional fields are the empty
string, matching Go zero values. The manifest carries no namespace field. -/
structure ContainerManifest where
  version : String
  id : String
  uuid : String
  containers : List Container
  volumes : List Volume
deriving DecidableEq, Repr

/-- Modelled from the spec: the canonical internal Pod entity (section 3);
the original Go type api.BoundPod is in the missing pkg/api package. The
namespace field is spelled namespc since namespace is a keyword here. -/
structure BoundPod where
  name : String
  uid : String
  namespc : String
  selfLink : String
  containers : List Container
  volumes : List Volume
deriving DecidableEq, Repr

/-- Modelled from the spec: the four update operations (section 3); the Go
constants kubelet.SET etc. live in the missing pkg/kubelet types file. -/
inductive Operation
  | SET
  | ADD
  | UPDATE
  | REMOVE
deriving DecidableEq, Repr

/-- Modelled from the spec: the Update envelope every source emits
(section 3); the Go type kubelet.PodUpdate is in the missing pkg/kubelet
types file. -/
structure PodUpdate where
  pods : List BoundPod
  op : Operation
  source : String
deriving DecidableEq, Repr

/-- Modelled from the spec: the SourceKey of the file source adapter
(section 3); the Go constant kubelet.FileSource is in the missing
pkg/kubelet types file. -/
def FileSource : String := "file"

/-- Modelled from the spec: the process-configured default namespace
(section 4.1, section 9); the Go constant kubelet.NamespaceDefault is in
the missing pkg/kubelet types file. Extraction takes the default namespace
as an injected parameter, and this constant is the value the process
injects. -/
def NamespaceDefault : String := "default"

/-- Modelled from the spec: the decode error taxonomy (section 7). -/
inductive DecodeError
  | unknownFormat
  | unknownVersion
  | missingField
deriving DecidableEq, Repr

/-- Modelled from the spec: the errors a single-shot extraction can return
(sections 4.2 and 7): a missing path, a path that is neither a regular
file nor a directory, or a decode failure. -/
inductive ExtractError
  | ioNotFound
  | notFileOrDir
  | decode (e : DecodeError)
deriving DecidableEq, Repr

/-- Modelled from the spec: the contents of one regular file, abstracted to
whether the raw bytes parse as a structured manifest (section 4.1): either
a parsed manifest value, or bytes that do not parse at all. -/
inductive FileData
  | manifest (m : ContainerManifest)
  | badBytes
deriving DecidableEq, Repr

/-- Modelled from the spec: what a filesystem path resolves to (section
4.2): a regular file with contents, or a directory with its direct
regular-file children listed as name-contents pairs. -/
inductive FSNode
  | file (d : FileData)
  | dir (entries : List (String × FileData))
deriving DecidableEq, Repr

/-- Modelled from the spec: the filesystem as seen at one poll tick, a map
from path to what it resolves to (none when the path does not exist). -/
abbrev FS : Type := String → Option FSNode

/-- Modelled from the spec: a simple content hash used by name generation
(section 9, hash-based name generation); the original Go hashing helper is
in the missing pkg/kubelet/config/file.go. -/
def hashString (s : String) : Nat :=
  s.foldl (fun a c => (a * 131 + c.toNat) % 1000003) 5381

/-- Modelled from the spec: pod name generation (section 4.1 step 3 and
section 9): a pure function of the manifest identifying content and a
uniqueness discriminator (the file name), producing a non-empty name that
begins with the manifest id when one is supplied. The original Go helper is
in the missing pkg/kubelet/config/file.go; the test file pins the
id-then-dash-then-hash shape (TestReadFromFile expects a name beginning
with the supplied id followed by a dash). -/
def generatePodName (m : ContainerManifest) (disc : String) : String :=
  (if m.id = "" then "pod" else m.id) ++ "-" ++ toString (hashString (m.id ++ disc))

/-- Modelled from the spec: uid generation for manifests that omit a uid
(section 4.1 step 2, a freshly generated unique token). The original Go
code calls a UUID generator in a missing util package; the model is a
deterministic stand-in that is injective in the discriminator, reflecting
the uniqueness guarantee of fresh token generation. -/
def generateUID (disc : String) : String := "gen-" ++ disc

/-- Modelled from the spec: the self link, a canonical locator computed as
a pure function of namespace and name (section 3 invariants, section 4.1
step 4); the test file pins the leading segment to an api path. -/
def makeSelfLink (ns nm : String) : String :=
  "/api/v1beta1/boundPods/" ++ ns ++ "/" ++ nm

/-- Modelled from the spec: the v1beta1 version-specific converter mapping
the external manifest shape into the canonical pod spec (section 4.1); the
original Go conversion functions are in the missing pkg/api conversion
packages. -/
def convertV1beta1 (m : ContainerManifest) : List Container × List Volume :=
  (m.containers, m.volumes)

/-- Modelled from the spec: the v1beta2 version-specific converter
(section 4.1, section 6: at least two historical version tokens supported
by distinct converters); the original Go conversion functions are in the
missing pkg/api conversion packages. -/
def convertV1beta2 (m : ContainerManifest) : List Container × List Volume :=
  (m.containers, m.volumes)

/-- Modelled from the spec: defaulting applied after conversion, in the
fixed order namespace, uid, name, self-link (section 4.1); the original Go
code is in the missing pkg/kubelet/config/file.go and pkg/api defaulting
packages. The manifest type carries no namespace, so the injected default
namespace is always used. -/
def applyDefaults (ns disc : String) (m : ContainerManifest)
    (cv : List Container × List Volume) : BoundPod :=
  let uid := if m.uuid = "" then generateUID disc else m.uuid
  let nm := generatePodName m disc
  { name := nm
    uid := uid
    namespc := ns
    selfLink := makeSelfLink ns nm
    containers := cv.1
    volumes := cv.2 }

/-- Modelled from the spec: the manifest decoder (section 4.1): parse the
raw bytes, extract the version token, dispatch to the version-specific
converter, then apply defaulting; unparseable bytes fail with
UnknownFormat and an unsupported version token fails with UnknownVersion.
The original Go decoding is in the missing pkg/kubelet/config/file.go and
pkg/api codec. -/
def decodePodFromData (ns disc : String) (d : FileData) :
    Except DecodeError BoundPod :=
  match d with
  | .badBytes => .error .unknownFormat
  | .manifest m =>
    if m.version = "v1beta1" then
      .ok (applyDefaults ns disc m (convertV1beta1 m))
    else if m.version = "v1beta2" then
      .ok (applyDefaults ns disc m (convertV1beta2 m))
    else
      .error .unknownVersion

/-- Modelled from the spec: the file source adapter value (section 4.2);
the original Go struct sourceFile in the missing pkg/kubelet/config/file.go
holds the watched path and the output channel; emissions onto the channel
are modelled as lists of updates returned by each call. -/
structure sourceFile where
  path : String

/-- Modelled from the spec: hidden files are excluded when enumerating a
directory (section 4.2); a file is hidden when its name begins with a
dot. -/
def isHiddenName (n : String) : Bool :=
  match n.data with
  | [] => false
  | c :: _ => c = '.'

/-- Modelled from the spec: directory extraction (section 4.2): enumerate
direct regular-file children, exclude hidden files, decode each
independently with the file name as discriminator, skip files whose decode
fails, keep all others. The original Go code is in the missing
pkg/kubelet/config/file.go. -/
def extractFromDirEntries (ns : String) (entries : List (String × FileData)) :
    List BoundPod :=
  (entries.filter (fun e => !isHiddenName e.1)).filterMap
    (fun e => (decodePodFromData ns e.1 e.2).toOption)

/-- Modelled from the spec: the outcome of one single-shot extraction call:
the returned error, if any, and the updates pushed onto the output channel
by that call. -/
structure ExtractOutcome where
  err : Option ExtractError
  emitted : List PodUpdate
deriving DecidableEq, Repr

/-- Modelled from the spec: the single-shot extraction primitive
extractFromPath (section 4.2, extractOnce): a missing path fails with an
IO not-found error and pushes nothing; a regular file decodes exactly one
manifest, failing with the decode error and pushing nothing on failure; a
directory yields a successful SET update over all decodable children, an
empty directory yielding a successful SET with zero pods. On success a
single SET update with source "file" is pushed. The original Go method is
in the missing pkg/kubelet/config/file.go. -/
def sourceFile.extractFromPath (s : sourceFile) (ns : String) (fs : FS) :
    ExtractOutcome :=
  match fs s.path with
  | none => { err := some .ioNotFound, emitted := [] }
  | some (.file d) =>
    match decodePodFromData ns s.path d with
    | .error e => { err := some (.decode e), emitted := [] }
    | .ok p =>
      { err := none
        emitted := [{ pods := [p], op := .SET, source := FileSource }] }
  | some (.dir entries) =>
    { err := none
      emitted := [{ pods := extractFromDirEntries ns entries
                    op := .SET
                    source := FileSource }] }

/-- Modelled from the spec: the empty SET update the periodic task pushes
on a failed tick (section 4.2 and section 9, emit-empty-SET choice),
signalling that no pods are currently known from this source. -/
def emptySetUpdate : PodUpdate :=
  { pods := [], op := .SET, source := FileSource }

/-- Modelled from the spec: one tick of the periodic task (section 4.2):
call the single-shot primitive; on success push its update; on failure do
not crash and push an empty SET update (the emit-empty-SET design choice
of section 9, pinned by TestUpdateOnNonExistentFile). The original Go run
method is in the missing pkg/kubelet/config/file.go. -/
def sourceFile.runTick (s : sourceFile) (ns : String) (fs : FS) :
    List PodUpdate :=
  match s.extractFromPath ns fs with
  | { err := some _, emitted := _ } => [emptySetUpdate]
  | { err := none, emitted := em } => em

/-- Modelled from the spec: all updates emitted over the first n poll ticks
of the background polling task (section 4.2), with the filesystem as seen
at tick i given by fsAt i. The original Go code loops the run method
forever at the poll interval. -/
def sourceFile.ticksEmitted (s : sourceFile) (ns : String)
    (fsAt : Nat → FS) : Nat → List PodUpdate
  | 0 => []
  | n + 1 => s.ticksEmitted ns fsAt n ++ s.runTick ns (fsAt n)

/-- Modelled from the spec: the constructor NewSourceFile (section 4.2)
binds the adapter permanently to one path and starts the background
polling task; the started task is modelled by ticksEmitted. The original
Go function is in the missing pkg/kubelet/config/file.go. -/
def NewSourceFile (path : String) : sourceFile := { path := path }

/-- Modelled from the spec: pod identity, namespace plus name
(section 4.3). -/
def podIdentity (p : BoundPod) : String × String := (p.namespc, p.name)

/-- Modelled from the spec: the merge multiplexer aggregate state, the
last known complete pod set for each source key (section 4.3,
PerSourceSnapshot); the original Go code is in the missing
pkg/kubelet/config/config.go. -/
abbrev MergeState : Type := String → List BoundPod

/-- Modelled from the spec: upsert by pod identity used by the ADD and
UPDATE delta operations (section 4.3). -/
def upsertPod (pods : List BoundPod) (p : BoundPod) : List BoundPod :=
  if pods.any (fun q => podIdentity q = podIdentity p) then
    pods.map (fun q => if podIdentity q = podIdentity p then p else q)
  else
    pods ++ [p]

/-- Modelled from the spec: the merge multiplexer applying one update to
its aggregate state (section 4.3): a SET replaces the snapshot of the
sending source wholesale; ADD and UPDATE upsert by identity; REMOVE
deletes by identity. Sources other than the sender are untouched. The
original Go code is in the missing pkg/kubelet/config/config.go. -/
def mergeApply (st : MergeState) (u : PodUpdate) : MergeState :=
  fun src =>
    if src = u.source then
      match u.op with
      | .SET => u.pods
      | .ADD => u.pods.foldl upsertPod (st src)
      | .UPDATE => u.pods.foldl upsertPod (st src)
      | .REMOVE =>
        (st src).filter
          (fun q => !(u.pods.any (fun p => podIdentity p = podIdentity q)))
    else st src

/-- Modelled from the spec: semantic validation of a pod (section 8): a
non-empty name, a non-empty uid, and a non-empty image reference in every
container. The original Go ValidateBoundPod is in the missing
pkg/api/validation package. -/
def validateBoundPod (p : BoundPod) : Bool :=
  p.name ≠ "" && p.uid ≠ "" && p.containers.all (fun c => c.image ≠ "")

/-- Modelled from the spec: the supported set of historical version tokens
(section 6): exactly the two versions with registered converters. -/
def supportedVersion (v : String) : Bool :=
  v = "v1beta1" || v = "v1beta2"

/-- Modelled from the spec: a valid manifest file (sections 4.1 and 8):
contents that parse, carry a supported version token, and whose containers
each name a non-empty image. -/
def validManifestData : FileData → Bool
  | .manifest m =>
    supportedVersion m.version && m.containers.all (fun c => c.image ≠ "")
  | .badBytes => false

/-- Modelled from the spec: a directory entry that is visible to
enumeration, that is, not a hidden file (section 4.2). -/
def visibleEntry (e : String × FileData) : Bool := !isHiddenName e.1

/-- Modelled from the spec: whether a file omits the manifest uid
(section 4.1 step 2). -/
def omitsUID : FileData → Bool
  | .manifest m => m.uuid = ""
  | .badBytes => true

/-- Modelled from the spec: the uid a manifest file explicitly supplies,
or the empty string when it holds no manifest (section 4.1 step 2). -/
def manifestUUID : FileData → String
  | .manifest m => m.uuid
  | .badBytes => ""

/-- Test fixture mirroring ExampleManifestAndPod of file_test.go: the
manifest with the given id and uid, one container and one host-dir
volume. -/
def exampleManifest (i : String) : ContainerManifest :=
  { version := "v1beta1", id := i, uuid := i
    containers := [{ name := "c" ++ i, image := "foo"
                     imagePullPolicy := ""
                     terminationMessagePath := "/somepath" }]
    volumes := [{ name := "host-dir", hostPathSource := some "/dir/path" }] }

/-- Test fixture mirroring TestExtractFromDir: a directory holding the
two example manifests as two files. -/
def exampleDirEntries : List (String × FileData) :=
  [("pod1file", FileData.manifest (exampleManifest "1")),
   ("pod2file", FileData.manifest (exampleManifest "2"))]

/-- Test fixture: a filesystem resolving every path to the two-manifest
example directory. -/
def exampleDirFS : FS := fun _ => some (FSNode.dir exampleDirEntries)

/-- Modelled from the spec: the pod a valid directory entry decodes to;
for valid entries both version converters carry the containers and
volumes through unchanged, so this closed form names the decoded pod
without the error branch. -/
def decodeValidEntry (ns : String) (e : String × FileData) : BoundPod :=
  match e.2 with
  | .manifest m => applyDefaults ns e.1 m (m.containers, m.volumes)
  | .badBytes => applyDefaults ns e.1 ⟨"", "", "", [], []⟩ ([], [])

end KubeletConfig

namespace Kubelet

/-- Possible outcomes of building the etcd client, in place of the Go
return value and process exit: a client built from the server list, a
client built from the config file, a fatal process termination, or a nil
client. -/
inductive EtcdClientResult
  | fromServers (servers : List String)
  | fromConfigFile (f : String)
  | fatalError
  | nilClient
deriving DecidableEq, Repr

/-- Embedded from pkg/kubelet/util.go EtcdClientOrDie: a non-empty server
list builds the client from it; otherwise a non-empty config file is
loaded, terminating the process fatally on load failure; otherwise nil is
returned. The external library call NewClientFromFile is abstracted by the
loadOk flag saying whether loading the config file succeeds. -/
def EtcdClientOrDie (etcdServerList : List String) (etcdConfigFile : String)
    (loadOk : Bool) : EtcdClientResult :=
  if etcdServerList.length > 0 then
    .fromServers etcdServerList
  else if etcdConfigFile ≠ "" then
    if loadOk then .fromConfigFile etcdConfigFile else .fatalError
  else
    .nilClient

end Kubelet

namespace KubeletConfig

/-- A string append with a non-empty left part is non-empty. -/
theorem string_append_ne_empty (a b : String) (h : a ≠ "") : a ++ b ≠ "" := by
  intro hc
  apply h
  have hd := congrArg String.data hc
  simp [String.data_append] at hd
  exact String.ext hd.1

/-- Appending on the left is cancellable. -/
theorem string_append_left_cancel (a x y : String) (h : a ++ x = a ++ y) :
    x = y := by
  have hd := congrArg String.data h
  simp [String.data_append] at hd
  exact String.ext hd

/-- A generated uid is never empty. -/
theorem generateUID_ne_empty (disc : String) : generateUID disc ≠ "" := by
  unfold generateUID
  apply string_append_ne_empty
  intro hc
  exact absurd (congrArg String.length hc) (by decide)

/-- Uid generation is injective in the discriminator, reflecting the
uniqueness of fresh token generation. -/
theorem generateUID_inj (d1 d2 : String) (h : generateUID d1 = generateUID d2) :
    d1 = d2 :=
  string_append_left_cancel "gen-" d1 d2 h

/-- A generated pod name is never empty. -/
theorem generatePodName_ne_empty (m : ContainerManifest) (disc : String) :
    generatePodName m disc ≠ "" := by
  unfold generatePodName
  apply string_append_ne_empty
  apply string_append_ne_empty
  by_cases hid : m.id = ""
  · simp [hid]
  · simp [hid]

end KubeletConfig

namespace KubeletConfig

/-- Decoding a valid directory entry succeeds with the closed-form pod. -/
theorem decode_valid_entry (ns : String) (e : String × FileData)
    (h : validManifestData e.2 = true) :
    decodePodFromData ns e.1 e.2 = Except.ok (decodeValidEntry ns e) := by
  obtain ⟨n, d⟩ := e
  cases d with
  | badBytes => simp [validManifestData] at h
  | manifest m =>
    have hv : supportedVersion m.version = true := by
      simp [validManifestData] at h
      exact h.1
    have hcase : m.version = "v1beta1" ∨ m.version = "v1beta2" := by
      simpa [supportedVersion] using hv
    rcases hcase with h1 | h2
    · simp [decodePodFromData, decodeValidEntry, h1, convertV1beta1]
    · simp [decodePodFromData, decodeValidEntry, h2, convertV1beta2]

/-- On a list of visible, valid entries directory extraction is exactly
the per-entry decode map. -/
theorem extractFromDirEntries_eq_map (ns : String)
    (entries : List (String × FileData))
    (h : ∀ e ∈ entries, visibleEntry e = true ∧ validManifestData e.2 = true) :
    extractFromDirEntries ns entries = entries.map (decodeValidEntry ns) := by
  induction entries with
  | nil => rfl
  | cons e es ih =>
    have he := h e (List.mem_cons_self e es)
    have hes : ∀ x ∈ es, visibleEntry x = true ∧ validManifestData x.2 = true :=
      fun x hx => h x (List.mem_cons_of_mem e hx)
    have hvis : (!isHiddenName e.1) = true := he.1
    have hdec := decode_valid_entry ns e he.2
    simp only [extractFromDirEntries, List.filter_cons, hvis, if_pos,
      List.filterMap_cons, hdec, Except.toOption, List.map_cons]
    exact congrArg (decodeValidEntry ns e :: ·) (by
      simpa [extractFromDirEntries] using ih hes)

/-- Directory extraction maps permutations of entries to permutations of
pods: the decoded pod set is independent of enumeration order. -/
theorem extractFromDirEntries_perm (ns : String)
    {l1 l2 : List (String × FileData)} (h : l1.Perm l2) :
    (extractFromDirEntries ns l1).Perm (extractFromDirEntries ns l2) :=
  (h.filter _).filterMap _

/-- A valid entry decodes to a pod that passes semantic validation. -/
theorem validate_decodeValidEntry (ns : String) (e : String × FileData)
    (h : validManifestData e.2 = true) :
    validateBoundPod (decodeValidEntry ns e) = true := by
  obtain ⟨n, d⟩ := e
  cases d with
  | badBytes => simp [validManifestData] at h
  | manifest m =>
    simp only [validManifestData, Bool.and_eq_true, List.all_eq_true,
      decide_eq_true_eq] at h
    have hname : generatePodName m n ≠ "" := generatePodName_ne_empty m n
    have huid : (if m.uuid = "" then generateUID n else m.uuid) ≠ "" := by
      by_cases hu : m.uuid = ""
      · simpa [hu] using generateUID_ne_empty n
      · simp [hu]
    simp [decodeValidEntry, applyDefaults, validateBoundPod,
      List.all_eq_true, hname, huid]
    exact h.2

/-- Every update the single-shot extraction emits is a SET from the file
source. -/
theorem extract_emitted_SET (s : sourceFile) (ns : String) (fs : FS) :
    ∀ u ∈ (s.extractFromPath ns fs).emitted,
      u.op = Operation.SET ∧ u.source = FileSource := by
  intro u hu
  cases hfs : fs s.path with
  | none => simp [sourceFile.extractFromPath, hfs] at hu
  | some node =>
    cases node with
    | file d =>
      cases hdec : decodePodFromData ns s.path d with
      | error e => simp [sourceFile.extractFromPath, hfs, hdec] at hu
      | ok p =>
        simp [sourceFile.extractFromPath, hfs, hdec] at hu
        subst hu
        exact ⟨rfl, rfl⟩
    | dir entries =>
      simp [sourceFile.extractFromPath, hfs] at hu
      subst hu
      exact ⟨rfl, rfl⟩

/-- Applying the same SET update twice leaves the merge state where one
application put it. -/
theorem mergeApply_set_idem (st : MergeState) (u : PodUpdate)
    (h : u.op = Operation.SET) :
    mergeApply (mergeApply st u) u = mergeApply st u := by
  funext src
  by_cases hs : src = u.source <;> simp [mergeApply, h, hs]

end KubeletConfig

namespace KubeletConfig

/-- C2: extraction from a non-existent path returns the IO not-found
error, and extraction from a regular file holding non-decodable bytes
returns the decode unknown-format error; in both cases the call pushes no
update onto the output channel. -/
theorem c2_extract_failures_push_nothing (s : sourceFile) (ns : String)
    (fs : FS) :
    (fs s.path = none →
      s.extractFromPath ns fs =
        { err := some ExtractError.ioNotFound, emitted := [] }) ∧
    (fs s.path = some (FSNode.file FileData.badBytes) →
      s.extractFromPath ns fs =
        { err := some (ExtractError.decode DecodeError.unknownFormat)
          emitted := [] }) := by
  constructor
  · intro h
    simp [sourceFile.extractFromPath, h]
  · intro h
    simp [sourceFile.extractFromPath, h, decodePodFromData]

/-- Witness for C2 at the concrete inputs of the tests: the fake missing
path, and a file of undecodable bytes. -/
theorem c2_witness :
    ((fun _ => none : FS) (sourceFile.mk "/some/fake/file").path = none ∧
      (sourceFile.mk "/some/fake/file").extractFromPath NamespaceDefault
          (fun _ => none) =
        { err := some ExtractError.ioNotFound, emitted := [] }) ∧
    ((fun _ => some (FSNode.file FileData.badBytes) : FS)
        (sourceFile.mk "/tmp/bad").path =
          some (FSNode.file FileData.badBytes) ∧
      (sourceFile.mk "/tmp/bad").extractFromPath NamespaceDefault
          (fun _ => some (FSNode.file FileData.badBytes)) =
        { err := some (ExtractError.decode DecodeError.unknownFormat)
          emitted := [] }) :=
  ⟨⟨rfl,
    (c2_extract_failures_push_nothing (sourceFile.mk "/some/fake/file")
      NamespaceDefault (fun _ => none)).1 rfl⟩,
   ⟨rfl,
    (c2_extract_failures_push_nothing (sourceFile.mk "/tmp/bad")
      NamespaceDefault (fun _ => some (FSNode.file FileData.badBytes))).2 rfl⟩⟩

/-- C3: extraction from an empty directory succeeds and pushes exactly one
update, a SET from source file with zero pods. -/
theorem c3_empty_dir_emits_empty_set (s : sourceFile) (ns : String) (fs : FS)
    (h : fs s.path = some (FSNode.dir [])) :
    s.extractFromPath ns fs =
      { err := none
        emitted := [{ pods := [], op := Operation.SET, source := "file" }] } := by
  simp [sourceFile.extractFromPath, h, extractFromDirEntries, FileSource]

/-- Witness for C3 at a concrete empty directory. -/
theorem c3_witness :
    (fun _ => some (FSNode.dir []) : FS) (sourceFile.mk "/tmp/emptydir").path =
        some (FSNode.dir []) ∧
    (sourceFile.mk "/tmp/emptydir").extractFromPath NamespaceDefault
        (fun _ => some (FSNode.dir [])) =
      { err := none
        emitted := [{ pods := [], op := Operation.SET, source := "file" }] } :=
  ⟨rfl,
   c3_empty_dir_emits_empty_set (sourceFile.mk "/tmp/emptydir")
     NamespaceDefault (fun _ => some (FSNode.dir [])) rfl⟩

end KubeletConfig

namespace Kubelet

/-- C10: EtcdClientOrDie builds the client from the server list whenever
the list is non-empty, ignoring the config file and its loadability; with
an empty list and an empty config file it returns nil rather than
terminating; and it terminates fatally exactly when the list is empty and
a non-empty config file fails to load. -/
theorem c10_etcd_client_or_die (etcdServerList : List String)
    (etcdConfigFile : String) (loadOk : Bool) :
    (etcdServerList ≠ [] →
      EtcdClientOrDie etcdServerList etcdConfigFile loadOk =
          EtcdClientResult.fromServers etcdServerList ∧
      ∀ cfg2 load2, EtcdClientOrDie etcdServerList cfg2 load2 =
          EtcdClientOrDie etcdServerList etcdConfigFile loadOk) ∧
    (etcdServerList = [] → etcdConfigFile = "" →
      EtcdClientOrDie etcdServerList etcdConfigFile loadOk =
        EtcdClientResult.nilClient) ∧
    (EtcdClientOrDie etcdServerList etcdConfigFile loadOk =
        EtcdClientResult.fatalError ↔
      etcdServerList = [] ∧ etcdConfigFile ≠ "" ∧ loadOk = false) := by
  refine ⟨?nonempty, ?nil, ?fatal⟩
  case nonempty =>
    intro hne
    have hpos : 0 < etcdServerList.length := List.length_pos.mpr hne
    constructor
    · simp [EtcdClientOrDie, hpos]
    · intro cfg2 load2
      simp [EtcdClientOrDie, hpos]
  case nil =>
    intro hnil hcfg
    simp [EtcdClientOrDie, hnil, hcfg]
  case fatal =>
    rcases hl : etcdServerList with _ | ⟨a, as⟩
    · by_cases hcfg : etcdConfigFile = ""
      · simp [EtcdClientOrDie, hcfg]
      · cases loadOk with
        | false => simp [EtcdClientOrDie, hcfg]
        | true => simp [EtcdClientOrDie, hcfg]
    · simp [EtcdClientOrDie]

/-- Witness for C10 at concrete inputs: a one-element server list with an
unloadable config file, and the empty-list empty-file case. -/
theorem c10_witness :
    ((["http://127.0.0.1:4001"] : List String) ≠ [] ∧
      EtcdClientOrDie ["http://127.0.0.1:4001"] "/etc/etcd.conf" false =
        EtcdClientResult.fromServers ["http://127.0.0.1:4001"]) ∧
    (([] : List String) = [] ∧ ("" : String) = "" ∧
      EtcdClientOrDie [] "" true = EtcdClientResult.nilClient) :=
  ⟨⟨by decide,
    ((c10_etcd_client_or_die ["http://127.0.0.1:4001"] "/etc/etcd.conf"
      false).1 (by decide)).1⟩,
   ⟨rfl, rfl,
    (c10_etcd_client_or_die [] "" true).2.1 rfl rfl⟩⟩

end Kubelet

namespace KubeletConfig

/-- C1: on any poll tick whose extraction fails (in particular a missing
path), the adapter started by NewSourceFile does not crash and pushes an
update with operation SET, source file and an empty pod list onto its
output channel, and every subsequent interval still runs its tick. -/
theorem c1_failed_tick_emits_empty_set (path ns : String) (fsAt : Nat → FS)
    (n : Nat)
    (hfail : ((NewSourceFile path).extractFromPath ns (fsAt n)).err.isSome = true) :
    (NewSourceFile path).runTick ns (fsAt n) =
      [{ pods := [], op := Operation.SET, source := "file" }] ∧
    ∀ m : Nat, (NewSourceFile path).ticksEmitted ns fsAt (m + 1) =
      (NewSourceFile path).ticksEmitted ns fsAt m ++
        (NewSourceFile path).runTick ns (fsAt m) := by
  constructor
  · rcases hx : (NewSourceFile path).extractFromPath ns (fsAt n) with ⟨err, em⟩
    cases err with
    | some e => simp [sourceFile.runTick, hx, emptySetUpdate, FileSource]
    | none => rw [hx] at hfail; simp at hfail
  · intro m
    rfl

/-- Witness for C1 at the concrete input of TestUpdateOnNonExistentFile: a
non-existent path at every tick. -/
theorem c1_witness :
    (((NewSourceFile "random_non_existent_path").extractFromPath
        NamespaceDefault ((fun _ => fun _ => none : Nat → FS) 0)).err.isSome
      = true) ∧
    ((NewSourceFile "random_non_existent_path").runTick NamespaceDefault
        ((fun _ => fun _ => none : Nat → FS) 0) =
      [{ pods := [], op := Operation.SET, source := "file" }] ∧
     ∀ m : Nat,
      (NewSourceFile "random_non_existent_path").ticksEmitted NamespaceDefault
          (fun _ => fun _ => none) (m + 1) =
        (NewSourceFile "random_non_existent_path").ticksEmitted
            NamespaceDefault (fun _ => fun _ => none) m ++
          (NewSourceFile "random_non_existent_path").runTick NamespaceDefault
            ((fun _ => fun _ => none : Nat → FS) m)) :=
  ⟨rfl,
   c1_failed_tick_emits_empty_set "random_non_existent_path"
     NamespaceDefault (fun _ => fun _ => none) 0 rfl⟩

/-- C5: extracting a single-manifest file with version v1beta1, id test
and one container with image test/image yields exactly one pod whose
namespace is the injected default, whose container images are exactly
test/image, and whose name begins with test followed by a dash. -/
theorem c5_single_manifest_scenario (s : sourceFile) (ns : String) (fs : FS)
    (m : ContainerManifest) (c : Container)
    (hver : m.version = "v1beta1")
    (hid : m.id = "test")
    (hcs : m.containers = [c])
    (himg : c.image = "test/image")
    (h : fs s.path = some (FSNode.file (FileData.manifest m))) :
    ∃ p : BoundPod,
      s.extractFromPath ns fs =
        { err := none
          emitted := [{ pods := [p], op := Operation.SET, source := "file" }] } ∧
      p.namespc = ns ∧
      p.containers.map (fun x => x.image) = ["test/image"] ∧
      ∃ rest, p.name = "test-" ++ rest := by
  refine ⟨applyDefaults ns s.path m (convertV1beta1 m), ?_, rfl, ?_, ?_⟩
  · simp [sourceFile.extractFromPath, h, decodePodFromData, hver, FileSource]
  · simp [applyDefaults, convertV1beta1, hcs, himg]
  · refine ⟨toString (hashString (m.id ++ s.path)), ?_⟩
    show generatePodName m s.path = "test-" ++ toString (hashString (m.id ++ s.path))
    simp [generatePodName, hid]

/-- Witness for C5 at the concrete manifest of TestReadFromFile. -/
theorem c5_witness :
    (({ version := "v1beta1", id := "test", uuid := "12345"
        containers := [{ name := "", image := "test/image"
                         imagePullPolicy := "PullAlways"
                         terminationMessagePath := "" }]
        volumes := [] } : ContainerManifest).version = "v1beta1") ∧
    ∃ p : BoundPod,
      (sourceFile.mk "/tmp/pod.json").extractFromPath NamespaceDefault
          (fun _ => some (FSNode.file (FileData.manifest
            { version := "v1beta1", id := "test", uuid := "12345"
              containers := [{ name := "", image := "test/image"
                               imagePullPolicy := "PullAlways"
                               terminationMessagePath := "" }]
              volumes := [] }))) =
        { err := none
          emitted := [{ pods := [p], op := Operation.SET, source := "file" }] } ∧
      p.namespc = NamespaceDefault ∧
      p.containers.map (fun x => x.image) = ["test/image"] ∧
      ∃ rest, p.name = "test-" ++ rest :=
  ⟨rfl,
   c5_single_manifest_scenario (sourceFile.mk "/tmp/pod.json")
     NamespaceDefault
     (fun _ => some (FSNode.file (FileData.manifest
       { version := "v1beta1", id := "test", uuid := "12345"
         containers := [{ name := "", image := "test/image"
                          imagePullPolicy := "PullAlways"
                          terminationMessagePath := "" }]
         volumes := [] })))
     { version := "v1beta1", id := "test", uuid := "12345"
       containers := [{ name := "", image := "test/image"
                        imagePullPolicy := "PullAlways"
                        terminationMessagePath := "" }]
       volumes := [] }
     { name := "", image := "test/image", imagePullPolicy := "PullAlways"
       terminationMessagePath := "" }
     rfl rfl rfl rfl rfl⟩

/-- C6: a valid single-manifest file that omits the manifest id yields
exactly one pod whose name is non-empty and whose namespace is the
injected default namespace. -/
theorem c6_omitted_id_generates_name (s : sourceFile) (ns : String)
    (fs : FS) (m : ContainerManifest)
    (_hid : m.id = "")
    (hver : supportedVersion m.version = true)
    (h : fs s.path = some (FSNode.file (FileData.manifest m))) :
    ∃ p : BoundPod,
      s.extractFromPath ns fs =
        { err := none
          emitted := [{ pods := [p], op := Operation.SET, source := "file" }] } ∧
      p.name ≠ "" ∧ p.namespc = ns := by
  have hcase : m.version = "v1beta1" ∨ m.version = "v1beta2" := by
    simpa [supportedVersion] using hver
  rcases hcase with h1 | h1
  · exact ⟨applyDefaults ns s.path m (convertV1beta1 m),
      by simp [sourceFile.extractFromPath, h, decodePodFromData, h1, FileSource],
      generatePodName_ne_empty m s.path, rfl⟩
  · exact ⟨applyDefaults ns s.path m (convertV1beta2 m),
      by simp [sourceFile.extractFromPath, h, decodePodFromData, h1, FileSource],
      generatePodName_ne_empty m s.path, rfl⟩

/-- Witness for C6 at the concrete manifest of TestReadFromFileWithoutID. -/
theorem c6_witness :
    (({ version := "v1beta1", id := "", uuid := "12345"
        containers := [{ name := "", image := "test/image"
                         imagePullPolicy := "PullAlways"
                         terminationMessagePath := "" }]
        volumes := [] } : ContainerManifest).id = "") ∧
    ∃ p : BoundPod,
      (sourceFile.mk "/tmp/pod.json").extractFromPath NamespaceDefault
          (fun _ => some (FSNode.file (FileData.manifest
            { version := "v1beta1", id := "", uuid := "12345"
              containers := [{ name := "", image := "test/image"
                               imagePullPolicy := "PullAlways"
                               terminationMessagePath := "" }]
              volumes := [] }))) =
        { err := none
          emitted := [{ pods := [p], op := Operation.SET, source := "file" }] } ∧
      p.name ≠ "" ∧ p.namespc = NamespaceDefault :=
  ⟨rfl,
   c6_omitted_id_generates_name (sourceFile.mk "/tmp/pod.json")
     NamespaceDefault
     (fun _ => some (FSNode.file (FileData.manifest
       { version := "v1beta1", id := "", uuid := "12345"
         containers := [{ name := "", image := "test/image"
                          imagePullPolicy := "PullAlways"
                          terminationMessagePath := "" }]
         volumes := [] })))
     { version := "v1beta1", id := "", uuid := "12345"
       containers := [{ name := "", image := "test/image"
                        imagePullPolicy := "PullAlways"
                        terminationMessagePath := "" }]
       volumes := [] }
     rfl (by decide) rfl⟩

/-- C8: the two historical version tokens v1beta1 and v1beta2 are each
accepted, dispatching to their own converters, and the same manifest
content decodes under either token to the same canonical pod. -/
theorem c8_two_versions_same_pod (ns disc mid uuid : String)
    (cs : List Container) (vs : List Volume) :
    ∃ p : BoundPod,
      decodePodFromData ns disc (FileData.manifest
          { version := "v1beta1", id := mid, uuid := uuid
            containers := cs, volumes := vs }) = Except.ok p ∧
      decodePodFromData ns disc (FileData.manifest
          { version := "v1beta2", id := mid, uuid := uuid
            containers := cs, volumes := vs }) = Except.ok p ∧
      p.namespc = ns ∧ p.containers = cs := by
  refine ⟨applyDefaults ns disc
      { version := "v1beta1", id := mid, uuid := uuid
        containers := cs, volumes := vs } (cs, vs), ?_, ?_, rfl, rfl⟩
  · simp [decodePodFromData, convertV1beta1]
  · simp [decodePodFromData, convertV1beta2, applyDefaults, generatePodName]

end KubeletConfig

namespace KubeletConfig

/-- C4: a directory of visible, valid manifest files extracts with no
error into a single SET update from source file holding exactly one pod
per file, every pod passing semantic validation, and the pod multiset is
invariant under any reordering of the directory enumeration. -/
theorem c4_dir_extraction_complete (s : sourceFile) (ns : String) (fs : FS)
    (entries : List (String × FileData))
    (hdir : fs s.path = some (FSNode.dir entries))
    (hval : ∀ e ∈ entries, visibleEntry e = true ∧ validManifestData e.2 = true) :
    ∃ pods : List BoundPod,
      s.extractFromPath ns fs =
        { err := none
          emitted := [{ pods := pods, op := Operation.SET, source := "file" }] } ∧
      pods.length = entries.length ∧
      (∀ p ∈ pods, validateBoundPod p = true) ∧
      (∀ entries2 : List (String × FileData), entries.Perm entries2 →
        (extractFromDirEntries ns entries2).Perm pods) := by
  refine ⟨extractFromDirEntries ns entries, ?emit, ?len, ?valid, ?perm⟩
  case emit =>
    simp [sourceFile.extractFromPath, hdir, FileSource]
  case len =>
    rw [extractFromDirEntries_eq_map ns entries hval, List.length_map]
  case valid =>
    intro p hp
    rw [extractFromDirEntries_eq_map ns entries hval] at hp
    obtain ⟨e, he, rfl⟩ := List.mem_map.mp hp
    exact validate_decodeValidEntry ns e (hval e he).2
  case perm =>
    intro entries2 hperm
    exact extractFromDirEntries_perm ns hperm.symm

/-- Witness for C4 at the two-manifest directory of TestExtractFromDir. -/
theorem c4_witness :
    exampleDirFS (sourceFile.mk "/tmp/dir").path =
        some (FSNode.dir exampleDirEntries) ∧
    (∀ e ∈ exampleDirEntries,
      visibleEntry e = true ∧ validManifestData e.2 = true) ∧
    ∃ pods : List BoundPod,
      (sourceFile.mk "/tmp/dir").extractFromPath NamespaceDefault
          exampleDirFS =
        { err := none
          emitted := [{ pods := pods, op := Operation.SET, source := "file" }] } ∧
      pods.length = exampleDirEntries.length ∧
      (∀ p ∈ pods, validateBoundPod p = true) ∧
      (∀ entries2 : List (String × FileData), exampleDirEntries.Perm entries2 →
        (extractFromDirEntries NamespaceDefault entries2).Perm pods) :=
  ⟨rfl, by decide,
   c4_dir_extraction_complete (sourceFile.mk "/tmp/dir") NamespaceDefault
     exampleDirFS exampleDirEntries rfl (by decide)⟩

/-- C9: extraction depends only on the watched path contents, so
re-running it on an unchanged filesystem yields the same update; every
update it emits is a SET, and applying one of them twice in sequence to
the merge multiplexer leaves the aggregate view exactly where one
application put it. -/
theorem c9_idempotent_extraction_and_merge (s : sourceFile) (ns : String)
    (fs : FS) (st : MergeState) :
    (∀ fs2 : FS, fs2 s.path = fs s.path →
      s.extractFromPath ns fs2 = s.extractFromPath ns fs) ∧
    ∀ u ∈ (s.extractFromPath ns fs).emitted,
      u.op = Operation.SET ∧
      mergeApply (mergeApply st u) u = mergeApply st u := by
  constructor
  · intro fs2 h
    unfold sourceFile.extractFromPath
    rw [h]
  · intro u hu
    have hset := (extract_emitted_SET s ns fs u hu).1
    exact ⟨hset, mergeApply_set_idem st u hset⟩

end KubeletConfig

namespace KubeletConfig

/-- C7: over a directory batch of visible valid manifest files with
distinct file names, where generated uids are fresh (never colliding with
any explicitly supplied uid, the contract of fresh token generation),
every pod from a manifest with an explicit uid keeps exactly that uid,
every pod from a manifest omitting the uid gets a non-empty uid, and any
two pods of the one SET update, at least one of which had its uid
generated, carry distinct uids. -/
theorem c7_uid_preserved_and_unique (ns : String)
    (entries : List (String × FileData))
    (hval : ∀ e ∈ entries, visibleEntry e = true ∧ validManifestData e.2 = true)
    (hnodup : (entries.map Prod.fst).Nodup)
    (hfresh : ∀ e1 ∈ entries, ∀ e2 ∈ entries, omitsUID e2.2 = false →
      manifestUUID e2.2 ≠ generateUID e1.1) :
    extractFromDirEntries ns entries = entries.map (decodeValidEntry ns) ∧
    (∀ e ∈ entries,
      (omitsUID e.2 = false →
        (decodeValidEntry ns e).uid = manifestUUID e.2) ∧
      (omitsUID e.2 = true → (decodeValidEntry ns e).uid ≠ "")) ∧
    List.Pairwise (fun e1 e2 =>
      (omitsUID e1.2 = true ∨ omitsUID e2.2 = true) →
      (decodeValidEntry ns e1).uid ≠ (decodeValidEntry ns e2).uid) entries := by
  refine ⟨extractFromDirEntries_eq_map ns entries hval, ?each, ?pair⟩
  case each =>
    intro e he
    obtain ⟨n, d⟩ := e
    cases d with
    | badBytes =>
      have := (hval (n, FileData.badBytes) he).2
      simp [validManifestData] at this
    | manifest m =>
      constructor
      · intro hexp
        simp [omitsUID] at hexp
        simp [decodeValidEntry, applyDefaults, manifestUUID, hexp]
      · intro homit
        simp [omitsUID] at homit
        simp [decodeValidEntry, applyDefaults, homit]
        exact generateUID_ne_empty n
  case pair =>
    have hp1 : entries.Pairwise (fun a b => a.1 ≠ b.1) :=
      List.pairwise_map.mp hnodup
    refine hp1.imp_of_mem ?_
    intro e1 e2 h1 h2 hne hom
    obtain ⟨n1, d1⟩ := e1
    obtain ⟨n2, d2⟩ := e2
    cases d1 with
    | badBytes =>
      have := (hval (n1, FileData.badBytes) h1).2
      simp [validManifestData] at this
    | manifest m1 =>
      cases d2 with
      | badBytes =>
        have := (hval (n2, FileData.badBytes) h2).2
        simp [validManifestData] at this
      | manifest m2 =>
        by_cases hu1 : m1.uuid = ""
        · by_cases hu2 : m2.uuid = ""
          · simp [decodeValidEntry, applyDefaults, hu1, hu2]
            intro hc
            exact hne (generateUID_inj n1 n2 hc)
          · have hf := hfresh (n1, FileData.manifest m1) h1
              (n2, FileData.manifest m2) h2 (by simp [omitsUID, hu2])
            simp [manifestUUID] at hf
            simp [decodeValidEntry, applyDefaults, hu1, hu2]
            exact fun hc => hf hc.symm
        · by_cases hu2 : m2.uuid = ""
          · have hf := hfresh (n2, FileData.manifest m2) h2
              (n1, FileData.manifest m1) h1 (by simp [omitsUID, hu1])
            simp [manifestUUID] at hf
            simp [decodeValidEntry, applyDefaults, hu1, hu2]
            exact fun hc => hf hc
          · rcases hom with homs | homs <;> simp [omitsUID, hu1, hu2] at homs

/-- Witness for C7 at a concrete mixed batch: one manifest omitting its
uid and one supplying an explicit uid. -/
theorem c7_witness :
    (∀ e ∈ [("f1", FileData.manifest
               { version := "v1beta1", id := "1", uuid := ""
                 containers := [{ name := "c1", image := "foo"
                                  imagePullPolicy := ""
                                  terminationMessagePath := "" }]
                 volumes := [] }),
             ("f2", FileData.manifest
               { version := "v1beta2", id := "2", uuid := "uid-explicit"
                 containers := [{ name := "c2", image := "bar"
                                  imagePullPolicy := ""
                                  terminationMessagePath := "" }]
                 volumes := [] })],
      visibleEntry e = true ∧ validManifestData e.2 = true) ∧
    List.Pairwise (fun e1 e2 =>
      (omitsUID e1.2 = true ∨ omitsUID e2.2 = true) →
      (decodeValidEntry NamespaceDefault e1).uid ≠
        (decodeValidEntry NamespaceDefault e2).uid)
      [("f1", FileData.manifest
          { version := "v1beta1", id := "1", uuid := ""
            containers := [{ name := "c1", image := "foo"
                             imagePullPolicy := ""
                             terminationMessagePath := "" }]
            volumes := [] }),
       ("f2", FileData.manifest
          { version := "v1beta2", id := "2", uuid := "uid-explicit"
            containers := [{ name := "c2", image := "bar"
                             imagePullPolicy := ""
                             terminationMessagePath := "" }]
            volumes := [] })] :=
  ⟨by decide,
   (c7_uid_preserved_and_unique NamespaceDefault
     [("f1", FileData.manifest
         { version := "v1beta1", id := "1", uuid := ""
           containers := [{ name := "c1", image := "foo"
                            imagePullPolicy := ""
                            terminationMessagePath := "" }]
           volumes := [] }),
      ("f2", FileData.manifest
         { version := "v1beta2", id := "2", uuid := "uid-explicit"
           containers := [{ name := "c2", image := "bar"
                            imagePullPolicy := ""
                            terminationMessagePath := "" }]
           volumes := [] })]
     (by decide) (by decide) (by decide)).2.2⟩

end KubeletConfig
